import Mathlib

/-!
Verification of the Climarisk backend service against its specification.

Shallow embedding of `src/backend-service/live_nasa_processor.py` and the
`/api/live-risk` server-sent-event generator of `src/backend-service/app.py`.
Python/numpy numeric values are modelled exactly over `ℚ` (with an explicit
NaN constructor where NaN can arise); JSON-like Python values are modelled by
the inductive type `PyVal`; the effectful acquisition pipeline is modelled by
explicit state passing over an environment record plus an event trace.
-/

namespace Climarisk

/-- A Python float: either a finite value (modelled exactly as a rational)
or NaN.  Infinities do not arise in the modelled code paths. -/
inductive PyFloat
  | finite (q : ℚ)
  | nan
deriving DecidableEq

/-- A Python value as handled by `convert_numpy_types` and the JSON layer:
`None`, plain bool/int/float/str, the numpy wrapper types `np.integer`,
`np.floating`, `np.bool_`, lists, and string-keyed dicts (every dict built
by this program has string keys; `convert_numpy_types` passes keys through
unchanged). -/
inductive PyVal
  | none
  | bool (b : Bool)
  | int (n : Int)
  | float (f : PyFloat)
  | str (s : String)
  | npInt (n : Int)
  | npFloat (f : PyFloat)
  | npBool (b : Bool)
  | list (xs : List PyVal)
  | dict (kvs : List (String × PyVal))

mutual

/-- Embedding of `convert_numpy_types` (live_nasa_processor.py lines 36-51):
recursively converts numpy wrapper types to native Python types.  Note the
source converts `np.floating` via `float(data)`, which preserves NaN as a
plain float NaN — it does not map NaN to `None`. -/
def convert_numpy_types : PyVal → PyVal
  | .dict kvs => .dict (convertDictItems kvs)
  | .list xs => .list (convertListItems xs)
  | .npInt n => .int n
  | .npFloat f => .float f
  | .npBool b => .bool b
  | .none => .none
  | .bool b => .bool b
  | .int n => .int n
  | .float f => .float f
  | .str s => .str s

/-- The dict comprehension of `convert_numpy_types`: keys unchanged,
values converted recursively. -/
def convertDictItems : List (String × PyVal) → List (String × PyVal)
  | [] => []
  | (k, v) :: rest => (k, convert_numpy_types v) :: convertDictItems rest

/-- The list comprehension of `convert_numpy_types`. -/
def convertListItems : List PyVal → List PyVal
  | [] => []
  | v :: rest => convert_numpy_types v :: convertListItems rest

end

/-- Membership test `k in d` for a Python dict value (used as `"error" in result`). -/
def hasKey (k : String) : PyVal → Bool
  | .dict kvs => kvs.any (fun kv => kv.1 == k)
  | _ => false

/-! ### Numeric helpers and the recommendation formulas of `app.py` -/

/-- Python 3 `round` to the nearest integer, ties to even (banker's
rounding), modelled exactly on `ℚ`. -/
def pyRound (q : ℚ) : ℤ :=
  let f := ⌊q⌋
  let r := q - (f : ℚ)
  if r < 1 / 2 then f
  else if 1 / 2 < r then f + 1
  else if f % 2 = 0 then f else f + 1

/-- Embedding of `recommended_todi = max(current_todi - 1, 0)`
(app.py line 116). -/
def recommended_score (current : ℚ) : ℚ := max (current - 1) 0

/-- Embedding of the `improvement` field of the recommendation
(app.py lines 120-122):
`round(((current_todi - recommended_todi) / max(current_todi, 1)) * 100)`. -/
def improvement_pct (current : ℚ) : ℤ :=
  pyRound ((current - recommended_score current) / max current 1 * 100)

/-- Modelled from the spec: the source imports `todi_engine` and calls
`todi_engine.calculate_todi_score(temp_c, humidity_pct, wind_ms)`
(live_nasa_processor.py lines 115-117), but `todi_engine` is not among the
repository source files.  The spec (section 4.4 and the glossary) describes
the score as a pure, deterministic, bounded discomfort index over
(temperature in Celsius, humidity percentage, wind speed in m/s) that
returns null, rather than a silent NaN, exactly when the inputs fall
outside the formula's domain (out-of-range inputs).  We model the domain
as physically plausible ranges and the score as a combination of the three
inputs clamped to the bounded range [0, 10]. -/
def calculate_todi_score (tempC humidityPct windMs : ℚ) : Option ℚ :=
  if (-90 : ℚ) ≤ tempC ∧ tempC ≤ 60 ∧ 0 ≤ humidityPct ∧ humidityPct ≤ 100 ∧
      0 ≤ windMs ∧ windMs ≤ 150 then
    some (min 10 (max 0 (tempC / 6 + humidityPct / 50 - windMs / 20)))
  else
    Option.none

/-! ### The gridded dataset and `_extract_metrics_from_dataset` -/

/-- A downloaded gridded dataset, modelled as a read-only table from
variable name to the variable's data array over the file's full
time/space extent.  Arrays in this product are non-empty, encoded as a
head element plus a tail list so that max/mean reductions are total. -/
structure Dataset where
  vars : List (String × (ℚ × List ℚ))
deriving DecidableEq

/-- The `.max()` reduction over a non-empty array. -/
def arrMax (head : ℚ) (tail : List ℚ) : ℚ := tail.foldl max head

/-- The `.mean()` reduction over a non-empty array. -/
def arrMean (head : ℚ) (tail : List ℚ) : ℚ :=
  (head + tail.sum) / (1 + tail.length)

/-- Variable lookup `ds[name]`; a missing variable is a `KeyError`,
which `_extract_metrics_from_dataset` re-raises as
`ValueError(f"Variable {e} not found in the dataset.")`.  (The quotes that
Python's `str(KeyError)` adds around the name are omitted from the
modelled message.) -/
def lookupVar (ds : Dataset) (name : String) : Except String (ℚ × List ℚ) :=
  match ds.vars.find? (fun kv => kv.1 == name) with
  | some kv => .ok kv.2
  | Option.none => .error ("Variable " ++ name ++ " not found in the dataset.")

/-- The dictionary returned by `_extract_metrics_from_dataset`
(live_nasa_processor.py lines 119-124). -/
structure Metrics where
  max_temp_celsius : ℚ
  dewpoint_celsius : ℚ
  max_wind_speed_ms : ℚ
  todi_score : Option ℚ
deriving DecidableEq

/-- Embedding of `_extract_metrics_from_dataset`
(live_nasa_processor.py lines 103-126): maximum reduction on `T2M`,
`U10M`, `V10M`; mean reduction on `T2MDEW`; Kelvin-to-Celsius conversion;
wind magnitude `np.sqrt(U10M**2 + V10M**2)` (exact rational square root —
the arguments arising in the verified scenarios are perfect squares);
TODI score from temperature, the fixed humidity constant `65.0`, and the
wind magnitude. -/
def extract_metrics_from_dataset (ds : Dataset) : Except String Metrics :=
  match lookupVar ds "T2M" with
  | .error e => .error e
  | .ok t =>
  match lookupVar ds "U10M" with
  | .error e => .error e
  | .ok u =>
  match lookupVar ds "V10M" with
  | .error e => .error e
  | .ok v =>
  match lookupVar ds "T2MDEW" with
  | .error e => .error e
  | .ok d =>
    let T2M := arrMax t.1 t.2
    let U10M := arrMax u.1 u.2
    let V10M := arrMax v.1 v.2
    let T2MDEW := arrMean d.1 d.2
    let daily_max_temp_c := T2M - 273.15
    let daily_max_wind_ms := Rat.sqrt (U10M ^ 2 + V10M ^ 2)
    let daily_dewpoint_c := T2MDEW - 273.15
    .ok { max_temp_celsius := daily_max_temp_c,
          dewpoint_celsius := daily_dewpoint_c,
          max_wind_speed_ms := daily_max_wind_ms,
          todi_score := calculate_todi_score daily_max_temp_c 65 daily_max_wind_ms }

/-! ### The acquisition pipeline `process_live_data` -/

/-- Deterministic rendering of a rational, standing in for Python float
formatting inside f-strings (content is irrelevant to every claim). -/
def ratStr (q : ℚ) : String := toString q.num ++ "/" ++ toString q.den

/-- Embedding of `get_cache_filename` (live_nasa_processor.py lines 29-33):
deterministic mapping from (lat, lon, date) to a cache path.  The md5
digest step is modelled as the identity renaming of the key string, which
preserves determinism (same query, same path). -/
def get_cache_filename (lat lon : ℚ) (date : String) : String :=
  "cache/" ++ ratStr lat ++ "_" ++ ratStr lon ++ "_" ++ date ++ ".nc4"

/-- Observable steps of one `process_live_data` run, in program order. -/
inductive PipeEv
  | auth          -- earthaccess.login (network call to Earthdata URS)
  | checkCache    -- os.path.exists(cache_file)
  | search        -- earthaccess.search_data (network)
  | download      -- earthaccess.download (network)
  | renameFile    -- os.rename(temp, cache_file)
  | openDataset   -- xr.open_dataset(cache_file)
deriving DecidableEq

/-- One request's external world: what each effectful call would observe
or return during this run. -/
structure Env where
  /-- `auth.authenticated` after `earthaccess.login(strategy="netrc")`. -/
  authAuthenticated : Bool
  /-- `os.path.exists(cache_file)` at check time. -/
  cacheFileExists : Bool
  /-- Granule descriptors returned by `earthaccess.search_data`
  (abstracted to opaque ids; only emptiness is inspected). -/
  searchResults : List Nat
  /-- File paths returned by `earthaccess.download`. -/
  downloadedFiles : List String
  /-- `os.path.exists(downloaded_files[0])`. -/
  firstDownloadExists : Bool
  /-- `os.path.getsize(downloaded_files[0])`. -/
  firstDownloadSize : Nat
  /-- When `some msg`, `xr.open_dataset` raises with that message. -/
  openRaises : Option String
  /-- The dataset handle when `xr.open_dataset` succeeds. -/
  openedDataset : Dataset
  /-- `datetime.now(timezone.utc).isoformat()`. -/
  now : String
deriving DecidableEq

/-- The result dict built on the success path of `process_live_data`
(live_nasa_processor.py lines 150-160).  Scalar metrics appear as Python
floats except the wind magnitude, which `np.sqrt` returns as a numpy
float (converted by the final `convert_numpy_types` pass). -/
def buildResult (env : Env) (lat lon : ℚ) (start_date : String) (m : Metrics) : PyVal :=
  .dict [
    ("location", .str ("Live Data for " ++ ratStr lat ++ ", " ++ ratStr lon)),
    ("fetched_at", .str env.now),
    ("daily_summary", .dict [
      ("timestamps", .list [.str start_date]),
      ("max_temp_celsius", .list [.float (.finite m.max_temp_celsius)]),
      ("dewpoint_celsius", .list [.float (.finite m.dewpoint_celsius)]),
      ("max_wind_speed_ms", .list [.npFloat (.finite m.max_wind_speed_ms)]),
      ("todi_score", .list [match m.todi_score with
                            | Option.none => PyVal.none
                            | some q => .float (.finite q)])])]

/-- Opening the cache file and extracting metrics, shared by the cache-hit
and fresh-download paths (live_nasa_processor.py lines 147-163). -/
def openAndExtract (env : Env) (lat lon : ℚ) (start_date : String)
    (tr : List PipeEv) : Except String PyVal × List PipeEv :=
  let tr := tr ++ [PipeEv.openDataset]
  match env.openRaises with
  | some msg => (.error msg, tr)
  | Option.none =>
    match extract_metrics_from_dataset env.openedDataset with
    | .error e => (.error e, tr)
    | .ok m => (.ok (convert_numpy_types (buildResult env lat lon start_date m)), tr)

/-- The `try` body of `process_live_data` (live_nasa_processor.py lines
136-163), with `_authenticate_earthdata` (lines 57-65) and
`_search_and_download` (lines 68-100) inlined in program order.  Returns
the result or the raised exception's message, together with the trace of
observable steps. -/
def pipelineBody (env : Env) (lat lon : ℚ) (start_date : String) :
    Except String PyVal × List PipeEv :=
  if env.authAuthenticated then
    if env.cacheFileExists then
      openAndExtract env lat lon start_date [PipeEv.auth, PipeEv.checkCache]
    else
      if env.searchResults.isEmpty then
        (.error "No live data found for this location/date.",
         [PipeEv.auth, PipeEv.checkCache, PipeEv.search])
      else if env.downloadedFiles.isEmpty || !env.firstDownloadExists ||
          env.firstDownloadSize == 0 then
        (.error "Download failed: The downloaded file is missing or empty.",
         [PipeEv.auth, PipeEv.checkCache, PipeEv.search, PipeEv.download])
      else
        openAndExtract env lat lon start_date
          [PipeEv.auth, PipeEv.checkCache, PipeEv.search, PipeEv.download,
           PipeEv.renameFile]
  else
    (.error "Earthdata authentication failed. Check your .netrc file.",
     [PipeEv.auth])

/-- Embedding of `process_live_data` (live_nasa_processor.py lines
132-170): the `try` body's exception, if any, is caught by the
`except Exception` handler and converted into an error dictionary; the
function itself never raises.  `end_date` is accepted and unused, as in
the source. -/
def process_live_data (env : Env) (lat lon : ℚ) (start_date end_date : String) :
    PyVal × List PipeEv :=
  match pipelineBody env lat lon start_date with
  | (.ok v, tr) => (v, tr)
  | (.error e, tr) =>
      (.dict [("error", .str ("An unexpected error occurred: " ++ e))], tr)

/-! ### The `/api/live-risk` event stream of `app.py` -/

/-- One server-sent-event frame, by yield site of `event_stream`
(app.py lines 68-135): an unnamed progress `data:` line, an unnamed
`data:` line carrying a JSON error payload, a named `result` event, or
the named terminal `end` event with body `done` or `failed`. -/
inductive Frame
  | progressData (msg : String)
  | errorData (payload : PyVal)
  | resultEvent (payload : PyVal)
  | endEvent (body : String)

/-- The initial "Starting live NASA analysis" progress frame. -/
def startFrame (lat lon date : String) : Frame :=
  .progressData ("Starting live NASA analysis for " ++ lat ++ ", " ++ lon ++
    ", " ++ date)

/-- The spinner/step progress frames emitted while the fetch thread is
alive; `n` is the number of poll iterations observed for this run (their
text cycles through fixed lists and is irrelevant to every claim). -/
def progressFrames (n : Nat) : List Frame :=
  (List.range n).map (fun i => .progressData ("progress step " ++ toString i))

/-- Outcome of the background fetch thread: either it stored
`process_live_data`'s return value in the result container, or it died
with an exception, leaving the container empty so that reading
`result_container["data"]` raises `KeyError` inside the generator. -/
inductive FetchOutcome
  | ok (result : PyVal)
  | crashed (msg trace : String)

/-- The expression `result["daily_summary"]["todi_score"][0] or 0` (app.py line 115) as a
rational: `None` and `0` are falsy and coalesce to `0`.  Shapes that the
pipeline never produces (a NaN float or a non-numeric entry) make the
subsequent recommendation arithmetic raise, which the generator's
`except` turns into the failed path; they are mapped to `.error` here,
which `event_stream` routes identically. -/
def todiCurrent (r : PyVal) : Except String ℚ :=
  match r with
  | .dict kvs =>
    match kvs.find? (fun kv => kv.1 == "daily_summary") with
    | some (_, .dict ds) =>
      match ds.find? (fun kv => kv.1 == "todi_score") with
      | some (_, .list (v :: _)) =>
        match v with
        | PyVal.none => .ok 0
        | .float (.finite q) => .ok q
        | .int n => .ok (n : ℚ)
        | _ => .error "unsupported todi score value"
      | _ => .error "KeyError"
    | _ => .error "KeyError"
  | _ => .error "TypeError"

/-- The recommendation dict (app.py lines 117-124). -/
def recommendationDict (date : String) (current : ℚ) : PyVal :=
  .dict [("date", .str date),
         ("todi", .float (.finite (recommended_score current))),
         ("improvement", .int (improvement_pct current)),
         ("notes", .str ("Based on live NASA data, " ++ date ++
            " is predicted to be safer."))]

/-- Embedding of the generator `event_stream` (app.py lines 68-135) as the
list of frames it emits for one request that passed query-parameter
validation: the starting frame, `n` progress frames, then — depending on
the fetch outcome — the error/result frames and the terminal `end` frame.
Any exception inside the `try` body (a crashed fetch thread leaving the
container empty, or a fault while building the result frame) is caught by
the generator's `except`, which emits an error `data:` frame and
`end: failed`. -/
def event_stream (oc : FetchOutcome) (n : Nat) (lat lon date : String) :
    List Frame :=
  startFrame lat lon date :: progressFrames n ++
  match oc with
  | .crashed msg tb =>
      [.errorData (.dict [("error", .str msg), ("trace", .str tb)]),
       .endEvent "failed"]
  | .ok r =>
    if hasKey "error" r then
      [.errorData r, .endEvent "done"]
    else
      match todiCurrent r with
      | .error e =>
          [.errorData (.dict [("error", .str e), ("trace", .str "")]),
           .endEvent "failed"]
      | .ok current =>
          [.resultEvent (.dict [("liveData", r),
             ("recommendation", recommendationDict date current)]),
           .endEvent "done"]

/-! ### Ordering predicates over pipeline traces -/

/-- Steps that contact the network: Earthdata authentication, the archive
catalog search, and the granule download. -/
def isNetworkOp : PipeEv → Bool
  | .auth => true
  | .search => true
  | .download => true
  | _ => false

/-- Steps that contact the remote archive's catalog or data service. -/
def isArchiveOp : PipeEv → Bool
  | .search => true
  | .download => true
  | _ => false

/-- Predicate `checkedBefore p tr`: holds when, scanning the trace in order, the
cache-existence check occurs before the first step satisfying `p` (or no
step satisfies `p` at all). -/
def checkedBefore (p : PipeEv → Bool) : List PipeEv → Bool
  | [] => true
  | e :: rest =>
    if e == PipeEv.checkCache then true
    else if p e then false
    else checkedBefore p rest

mutual

/-- Predicate: a value contains no numpy wrapper type at any depth — the
shape the sanitizer is meant to guarantee before JSON encoding. -/
def wrapperFree : PyVal → Bool
  | .dict kvs => wrapperFreeDictItems kvs
  | .list xs => wrapperFreeListItems xs
  | .npInt _ => false
  | .npFloat _ => false
  | .npBool _ => false
  | .none => true
  | .bool _ => true
  | .int _ => true
  | .float _ => true
  | .str _ => true

/-- Wrapper-freedom of all values of a dict. -/
def wrapperFreeDictItems : List (String × PyVal) → Bool
  | [] => true
  | (_, v) :: rest => wrapperFree v && wrapperFreeDictItems rest

/-- Wrapper-freedom of all elements of a list. -/
def wrapperFreeListItems : List PyVal → Bool
  | [] => true
  | v :: rest => wrapperFree v && wrapperFreeListItems rest

end

/-! ## Theorems -/

mutual

theorem convert_wrapperFree_aux :
    ∀ v, wrapperFree (convert_numpy_types v) = true
  | .dict kvs => by
      simp only [convert_numpy_types, wrapperFree]
      exact convertDictItems_wrapperFree_aux kvs
  | .list xs => by
      simp only [convert_numpy_types, wrapperFree]
      exact convertListItems_wrapperFree_aux xs
  | .npInt n => rfl
  | .npFloat f => rfl
  | .npBool b => rfl
  | .none => rfl
  | .bool b => rfl
  | .int n => rfl
  | .float f => rfl
  | .str s => rfl

theorem convertDictItems_wrapperFree_aux :
    ∀ kvs, wrapperFreeDictItems (convertDictItems kvs) = true
  | [] => rfl
  | (k, v) :: rest => by
      simp only [convertDictItems, wrapperFreeDictItems, Bool.and_eq_true]
      exact ⟨convert_wrapperFree_aux v, convertDictItems_wrapperFree_aux rest⟩

theorem convertListItems_wrapperFree_aux :
    ∀ xs, wrapperFreeListItems (convertListItems xs) = true
  | [] => rfl
  | v :: rest => by
      simp only [convertListItems, wrapperFreeListItems, Bool.and_eq_true]
      exact ⟨convert_wrapperFree_aux v, convertListItems_wrapperFree_aux rest⟩

end

mutual

theorem convert_numpy_types_idem_aux :
    ∀ v, convert_numpy_types (convert_numpy_types v) = convert_numpy_types v
  | .dict kvs => by
      simp only [convert_numpy_types]
      exact congrArg PyVal.dict (convertDictItems_idem_aux kvs)
  | .list xs => by
      simp only [convert_numpy_types]
      exact congrArg PyVal.list (convertListItems_idem_aux xs)
  | .npInt n => rfl
  | .npFloat f => rfl
  | .npBool b => rfl
  | .none => rfl
  | .bool b => rfl
  | .int n => rfl
  | .float f => rfl
  | .str s => rfl

theorem convertDictItems_idem_aux :
    ∀ kvs, convertDictItems (convertDictItems kvs) = convertDictItems kvs
  | [] => rfl
  | (k, v) :: rest => by
      simp only [convertDictItems]
      exact congrArg₂ List.cons
        (congrArg (Prod.mk k) (convert_numpy_types_idem_aux v))
        (convertDictItems_idem_aux rest)

theorem convertListItems_idem_aux :
    ∀ xs, convertListItems (convertListItems xs) = convertListItems xs
  | [] => rfl
  | v :: rest => by
      simp only [convertListItems]
      exact congrArg₂ List.cons
        (convert_numpy_types_idem_aux v)
        (convertListItems_idem_aux rest)

end

/-- The last element of `x :: (l ++ [a, b])` is `b`. -/
theorem getLast_cons_append_pair {α : Type} (x a b : α) (l : List α) :
    (x :: (l ++ [a, b])).getLast? = some b := by
  have h : x :: (l ++ [a, b]) = ((x :: l) ++ [a]) ++ [b] := by simp
  rw [h, List.getLast?_concat]

/-- Dropping the last element of `x :: (l ++ [a, b])` leaves `a` last. -/
theorem dropLast_getLast_cons_append_pair {α : Type} (x a b : α) (l : List α) :
    (x :: (l ++ [a, b])).dropLast.getLast? = some a := by
  have h : x :: (l ++ [a, b]) = ((x :: l) ++ [a]) ++ [b] := by simp
  rw [h, List.dropLast_concat, List.getLast?_concat]

/-- C9: for every value built from mappings, sequences, numpy wrapper
types and plain primitives, the sanitizer `convert_numpy_types` is
idempotent: sanitizing twice equals sanitizing once. -/
theorem C9_sanitizer_idempotent (v : PyVal) :
    convert_numpy_types (convert_numpy_types v) = convert_numpy_types v :=
  convert_numpy_types_idem_aux v

/-- C3 counterexample: the sanitizer does not map a NaN-valued floating
input to null; `convert_numpy_types` applied to a NaN numpy float yields
a plain NaN float, not `None` — the source (live_nasa_processor.py lines
47-48) converts `np.floating` via `float(data)`, which preserves NaN. -/
theorem C3_counterexample :
    convert_numpy_types (.npFloat .nan) = PyVal.float PyFloat.nan ∧
    convert_numpy_types (.npFloat .nan) ≠ PyVal.none := by
  refine ⟨by simp [convert_numpy_types], ?_⟩
  simp [convert_numpy_types]

/-- C3 (amended): for every input value, the sanitizer maps numpy floating
values — including NaN — to plain Python floats (a NaN stays NaN; it is
not mapped to null), including when nested inside mappings and sequences,
and no input produces an unhandled fault (the embedding is a total
function, and `C9_sanitizer_idempotent` exercises it on all shapes). -/
theorem C3_amended_nan_becomes_plain_float :
    (∀ f : PyFloat, convert_numpy_types (.npFloat f) = .float f) ∧
    (∀ (k : String) (f : PyFloat),
      convert_numpy_types (.dict [(k, .npFloat f)]) = .dict [(k, .float f)]) ∧
    (∀ f : PyFloat,
      convert_numpy_types (.list [.npFloat f]) = .list [.float f]) ∧
    (∀ v : PyVal, wrapperFree (convert_numpy_types v) = true) := by
  refine ⟨fun f => by simp [convert_numpy_types], fun k f => ?_, fun f => ?_,
    convert_wrapperFree_aux⟩
  · simp [convert_numpy_types, convertDictItems]
  · simp [convert_numpy_types, convertListItems]

/-- C5: for every nonnegative current score (the orchestrator's
`current_todi` is `todi_score[0] or 0`, which coalesces null to `0` and is
nonnegative for the bounded nonnegative TODI index), the recommendation
satisfies `recommended_score ≤ current`, `recommended_score ≥ 0`, and
`improvement_pct = 0` when the current score is `0`. -/
theorem C5_recommendation_law (current : ℚ) (h : 0 ≤ current) :
    recommended_score current ≤ current ∧
    0 ≤ recommended_score current ∧
    (current = 0 → improvement_pct current = 0) := by
  refine ⟨max_le (by linarith) h, le_max_right _ _, fun h0 => ?_⟩
  subst h0
  norm_num [improvement_pct, recommended_score, pyRound]

/-- C5 witness: the recommendation law instantiated at a current score of
`0`, where all three conjuncts are concrete. -/
theorem C5_recommendation_law_witness :
    recommended_score 0 ≤ 0 ∧
    0 ≤ recommended_score 0 ∧
    ((0 : ℚ) = 0 → improvement_pct 0 = 0) :=
  C5_recommendation_law 0 (le_refl 0)

/-- C4: for a dataset whose `T2M` maximum is 305.15 K, `U10M` maximum 3.0,
`V10M` maximum 4.0 and `T2MDEW` mean 290.15 K, metric extraction applies
the maximum reduction to temperature and wind components and the mean
reduction to dewpoint and returns `max_temp_celsius = 32`,
`max_wind_speed_ms = 5`, `dewpoint_celsius = 17` and a non-null
`todi_score`. -/
theorem C4_scenario_metrics (ds : Dataset) (t u v d : ℚ × List ℚ)
    (ht : lookupVar ds "T2M" = .ok t) (htm : arrMax t.1 t.2 = 305.15)
    (hu : lookupVar ds "U10M" = .ok u) (hum : arrMax u.1 u.2 = 3)
    (hv : lookupVar ds "V10M" = .ok v) (hvm : arrMax v.1 v.2 = 4)
    (hd : lookupVar ds "T2MDEW" = .ok d) (hdm : arrMean d.1 d.2 = 290.15) :
    ∃ m, extract_metrics_from_dataset ds = .ok m ∧
      m.max_temp_celsius = 32 ∧ m.max_wind_speed_ms = 5 ∧
      m.dewpoint_celsius = 17 ∧ m.todi_score ≠ Option.none := by
  have hw : Rat.sqrt ((3 : ℚ) ^ 2 + 4 ^ 2) = 5 := by
    have h25 : ((3 : ℚ) ^ 2 + 4 ^ 2) = 5 * 5 := by norm_num
    rw [h25, Rat.sqrt_eq]
    norm_num
  have hx : extract_metrics_from_dataset ds = .ok
      { max_temp_celsius := 32, dewpoint_celsius := 17,
        max_wind_speed_ms := 5, todi_score := calculate_todi_score 32 65 5 } := by
    simp only [extract_metrics_from_dataset, ht, hu, hv, hd, htm, hum, hvm, hdm, hw]
    norm_num
  exact ⟨_, hx, rfl, rfl, rfl, by decide⟩

/-- C4 witness: the scenario dataset with `T2M = [305.15]`,
`U10M = [3]`, `V10M = [4]`, `T2MDEW = [290.15]`. -/
theorem C4_scenario_metrics_witness :
    ∃ m, extract_metrics_from_dataset
        ⟨[("T2M", (305.15, [])), ("U10M", (3, [])), ("V10M", (4, [])),
          ("T2MDEW", (290.15, []))]⟩ = .ok m ∧
      m.max_temp_celsius = 32 ∧ m.max_wind_speed_ms = 5 ∧
      m.dewpoint_celsius = 17 ∧ m.todi_score ≠ Option.none :=
  C4_scenario_metrics
    ⟨[("T2M", (305.15, [])), ("U10M", (3, [])), ("V10M", (4, [])),
      ("T2MDEW", (290.15, []))]⟩
    (305.15, []) (3, []) (4, []) (290.15, [])
    (by simp [lookupVar, List.find?]) (by norm_num [arrMax])
    (by simp [lookupVar, List.find?]) (by norm_num [arrMax])
    (by simp [lookupVar, List.find?]) (by norm_num [arrMax])
    (by simp [lookupVar, List.find?]) (by norm_num [arrMean])

/-- C8: the TODI score is computed from the maximum temperature, the fixed
humidity constant `65.0` and the maximum wind speed; the derived dewpoint
does not influence the score — for any two datasets agreeing on `T2M`,
`U10M` and `V10M` and both carrying a `T2MDEW` variable (so differing only
in dewpoint data), the resulting `todi_score` values are equal. -/
theorem C8_todi_independent_of_dewpoint (ds1 ds2 : Dataset)
    (hT : lookupVar ds1 "T2M" = lookupVar ds2 "T2M")
    (hU : lookupVar ds1 "U10M" = lookupVar ds2 "U10M")
    (hV : lookupVar ds1 "V10M" = lookupVar ds2 "V10M")
    (d1 d2 : ℚ × List ℚ)
    (hd1 : lookupVar ds1 "T2MDEW" = .ok d1)
    (hd2 : lookupVar ds2 "T2MDEW" = .ok d2) :
    (extract_metrics_from_dataset ds1).toOption.map Metrics.todi_score =
    (extract_metrics_from_dataset ds2).toOption.map Metrics.todi_score := by
  simp only [extract_metrics_from_dataset, hd1, hd2, ← hT, ← hU, ← hV]
  cases lookupVar ds1 "T2M" with
  | error e => rfl
  | ok t =>
    cases lookupVar ds1 "U10M" with
    | error e => rfl
    | ok u =>
      cases lookupVar ds1 "V10M" with
      | error e => rfl
      | ok v => rfl

/-- C8 witness: two concrete datasets identical except for `T2MDEW`
(mean 290.15 versus mean 300) produce equal TODI scores. -/
theorem C8_todi_independent_of_dewpoint_witness :
    (extract_metrics_from_dataset
        ⟨[("T2M", (305.15, [])), ("U10M", (3, [])), ("V10M", (4, [])),
          ("T2MDEW", (290.15, []))]⟩).toOption.map Metrics.todi_score =
    (extract_metrics_from_dataset
        ⟨[("T2M", (305.15, [])), ("U10M", (3, [])), ("V10M", (4, [])),
          ("T2MDEW", (300, []))]⟩).toOption.map Metrics.todi_score :=
  C8_todi_independent_of_dewpoint _ _ rfl rfl rfl _ _ rfl rfl

/-- Lemma: `openAndExtract` always appends exactly the dataset-open step to the
incoming trace, whatever its outcome. -/
theorem openAndExtract_trace (env : Env) (lat lon : ℚ) (sd : String)
    (tr : List PipeEv) :
    (openAndExtract env lat lon sd tr).2 = tr ++ [PipeEv.openDataset] := by
  unfold openAndExtract
  cases env.openRaises with
  | none => cases extract_metrics_from_dataset env.openedDataset <;> rfl
  | some msg => rfl

/-- Lemma: `process_live_data` reports the same step trace as its `try` body. -/
theorem process_live_data_trace (env : Env) (lat lon : ℚ) (sd ed : String) :
    (process_live_data env lat lon sd ed).2 = (pipelineBody env lat lon sd).2 := by
  unfold process_live_data
  cases hp : pipelineBody env lat lon sd with
  | mk res tr => cases res <;> rfl

/-- A successful `openAndExtract` value is the sanitized result dict; any
other outcome is an error. -/
theorem openAndExtract_cases (env : Env) (lat lon : ℚ) (sd : String)
    (tr : List PipeEv) :
    (∃ e, (openAndExtract env lat lon sd tr).1 = .error e) ∨
    (∃ m, (openAndExtract env lat lon sd tr).1 =
      .ok (convert_numpy_types (buildResult env lat lon sd m))) := by
  unfold openAndExtract
  cases env.openRaises with
  | none =>
    cases hx : extract_metrics_from_dataset env.openedDataset with
    | error e => exact Or.inl ⟨e, rfl⟩
    | ok m => exact Or.inr ⟨m, rfl⟩
  | some msg => exact Or.inl ⟨msg, rfl⟩

/-- The sanitized success dict keeps its top-level keys
(`location`, `fetched_at`, `daily_summary`) and so carries no `error`
key. -/
theorem buildResult_no_error_key (env : Env) (lat lon : ℚ) (sd : String)
    (m : Metrics) :
    hasKey "error" (convert_numpy_types (buildResult env lat lon sd m)) = false := by
  simp [buildResult, convert_numpy_types, convertDictItems, hasKey]

/-- The sanitized success dict is a dictionary. -/
theorem buildResult_is_dict (env : Env) (lat lon : ℚ) (sd : String)
    (m : Metrics) :
    ∃ kvs, convert_numpy_types (buildResult env lat lon sd m) = .dict kvs :=
  ⟨_, rfl⟩

/-- C10: for every environment and query, `process_live_data` returns a
dictionary and never propagates an exception (its embedding is a total
function whose `try`-body error is consumed by the `except` handler): when
any stage of the pipeline fails the returned dictionary contains the
`error` key, and on success it contains no `error` key. -/
theorem C10_process_live_data_total_dict (env : Env) (lat lon : ℚ)
    (sd ed : String) :
    (∃ kvs, (process_live_data env lat lon sd ed).1 = .dict kvs) ∧
    ((∃ v, (pipelineBody env lat lon sd).1 = .ok v) →
      hasKey "error" (process_live_data env lat lon sd ed).1 = false) ∧
    ((∃ e, (pipelineBody env lat lon sd).1 = .error e) →
      hasKey "error" (process_live_data env lat lon sd ed).1 = true) := by
  have hshape : (∃ e, (pipelineBody env lat lon sd).1 = .error e) ∨
      (∃ m, (pipelineBody env lat lon sd).1 =
        .ok (convert_numpy_types (buildResult env lat lon sd m))) := by
    unfold pipelineBody
    by_cases ha : env.authAuthenticated
    · by_cases hc : env.cacheFileExists
      · simpa [ha, hc] using openAndExtract_cases env lat lon sd _
      · by_cases hs : env.searchResults.isEmpty
        · exact Or.inl ⟨"No live data found for this location/date.",
            by simp [ha, hc, hs]⟩
        · by_cases hdl : (env.downloadedFiles.isEmpty || !env.firstDownloadExists ||
              env.firstDownloadSize == 0)
          · exact Or.inl
              ⟨"Download failed: The downloaded file is missing or empty.",
               by simp only [ha, hc, hs, hdl]; simp⟩
          · simpa [ha, hc, hs, hdl] using openAndExtract_cases env lat lon sd _
    · exact Or.inl ⟨"Earthdata authentication failed. Check your .netrc file.",
        by simp [ha]⟩
  rcases hshape with ⟨e, he⟩ | ⟨m, hm⟩
  · have hed : (process_live_data env lat lon sd ed).1 =
        .dict [("error", .str ("An unexpected error occurred: " ++ e))] := by
      unfold process_live_data
      cases hp : pipelineBody env lat lon sd with
      | mk res tr =>
        rw [hp] at he
        cases res with
        | error e2 =>
          cases he
          rfl
        | ok v => exact absurd he (by simp)
    refine ⟨⟨_, hed⟩, fun hok => ?_, fun _ => by simp [hed, hasKey]⟩
    rcases hok with ⟨v, hv⟩
    rw [he] at hv
    exact absurd hv (by simp)
  · have hok : (process_live_data env lat lon sd ed).1 =
        convert_numpy_types (buildResult env lat lon sd m) := by
      unfold process_live_data
      cases hp : pipelineBody env lat lon sd with
      | mk res tr =>
        rw [hp] at hm
        cases res with
        | error e2 => exact absurd hm (by simp)
        | ok v =>
          cases hm
          rfl
    refine ⟨?_, fun _ => ?_, fun herr => ?_⟩
    · rw [hok]
      exact buildResult_is_dict env lat lon sd m
    · rw [hok]
      exact buildResult_no_error_key env lat lon sd m
    · rcases herr with ⟨e, he⟩
      rw [hm] at he
      exact absurd he (by simp)

/-- C10 witness: with failing authentication the returned value is a
dictionary carrying the `error` key. -/
theorem C10_process_live_data_total_dict_witness :
    hasKey "error" (process_live_data
      { authAuthenticated := false, cacheFileExists := false,
        searchResults := [], downloadedFiles := [],
        firstDownloadExists := false, firstDownloadSize := 0,
        openRaises := some "unused", openedDataset := ⟨[]⟩, now := "t" }
      40 (-75) "2020-07-15" "2020-07-15").1 = true :=
  (C10_process_live_data_total_dict _ 40 (-75) "2020-07-15" "2020-07-15").2.2
    ⟨"Earthdata authentication failed. Check your .netrc file.", rfl⟩

/-- C6: when the cache file for the resolved (lat, lon, date) triple
already exists, `process_live_data` performs no archive search and no
download; with authentication succeeding, the cached file is opened
directly instead. -/
theorem C6_cache_hit_skips_search_download (env : Env) (lat lon : ℚ)
    (sd ed : String) (h : env.cacheFileExists = true) :
    PipeEv.search ∉ (process_live_data env lat lon sd ed).2 ∧
    PipeEv.download ∉ (process_live_data env lat lon sd ed).2 ∧
    (env.authAuthenticated = true →
      PipeEv.openDataset ∈ (process_live_data env lat lon sd ed).2) := by
  rw [process_live_data_trace]
  by_cases ha : env.authAuthenticated
  · have htr : (pipelineBody env lat lon sd).2 =
        [PipeEv.auth, PipeEv.checkCache, PipeEv.openDataset] := by
      unfold pipelineBody
      simp only [ha, h, if_true]
      exact openAndExtract_trace env lat lon sd _
    rw [htr]
    refine ⟨by decide, by decide, fun _ => by decide⟩
  · have htr : (pipelineBody env lat lon sd).2 = [PipeEv.auth] := by
      unfold pipelineBody
      simp [ha]
    rw [htr]
    exact ⟨by decide, by decide, fun hcontra => absurd hcontra (by simp [ha])⟩

/-- C6 witness: a cache-hit environment with successful authentication
opens the cached dataset and never searches or downloads. -/
theorem C6_cache_hit_skips_search_download_witness :
    PipeEv.search ∉ (process_live_data
      { authAuthenticated := true, cacheFileExists := true,
        searchResults := [], downloadedFiles := [],
        firstDownloadExists := false, firstDownloadSize := 0,
        openRaises := some "unused", openedDataset := ⟨[]⟩, now := "t" }
      40 (-75) "2020-07-15" "2020-07-15").2 ∧
    PipeEv.download ∉ (process_live_data
      { authAuthenticated := true, cacheFileExists := true,
        searchResults := [], downloadedFiles := [],
        firstDownloadExists := false, firstDownloadSize := 0,
        openRaises := some "unused", openedDataset := ⟨[]⟩, now := "t" }
      40 (-75) "2020-07-15" "2020-07-15").2 ∧
    (true = true → PipeEv.openDataset ∈ (process_live_data
      { authAuthenticated := true, cacheFileExists := true,
        searchResults := [], downloadedFiles := [],
        firstDownloadExists := false, firstDownloadSize := 0,
        openRaises := some "unused", openedDataset := ⟨[]⟩, now := "t" }
      40 (-75) "2020-07-15" "2020-07-15").2) :=
  C6_cache_hit_skips_search_download _ 40 (-75) "2020-07-15" "2020-07-15" rfl

/-- C7 counterexample: the claim that the cache-existence check precedes
every network call fails on the code — `process_live_data` calls
`_authenticate_earthdata` (a network call to Earthdata) first, at line
138, before computing the cache path and checking its existence at lines
140-142.  In this concrete cache-hit run the trace begins with the
authentication step, so no cache check precedes it. -/
theorem C7_counterexample :
    checkedBefore isNetworkOp
      ((pipelineBody
        { authAuthenticated := true, cacheFileExists := true,
          searchResults := [], downloadedFiles := [],
          firstDownloadExists := false, firstDownloadSize := 0,
          openRaises := some "unused", openedDataset := ⟨[]⟩, now := "t" }
        40 (-75) "2020-07-15").2) = false := by
  decide

/-- C7 (amended): for every request, the cache-existence check is
performed before any archive search or download call — the pipeline never
contacts the archive's catalog or data service before checking whether
the cached file exists — but authentication, itself a network call,
precedes the cache check: every trace begins with the authentication
step. -/
theorem C7_amended_check_before_archive_calls (env : Env) (lat lon : ℚ)
    (sd : String) :
    checkedBefore isArchiveOp ((pipelineBody env lat lon sd).2) = true ∧
    ((pipelineBody env lat lon sd).2).head? = some PipeEv.auth := by
  unfold pipelineBody
  by_cases ha : env.authAuthenticated
  · by_cases hc : env.cacheFileExists
    · rw [if_pos ha, if_pos hc, openAndExtract_trace]
      exact ⟨by decide, by decide⟩
    · by_cases hs : env.searchResults.isEmpty
      · rw [if_pos ha, if_neg (by simp [hc]), if_pos hs]
        exact ⟨by decide, by decide⟩
      · by_cases hdl : (env.downloadedFiles.isEmpty || !env.firstDownloadExists ||
            env.firstDownloadSize == 0)
        · rw [if_pos ha, if_neg (by simp [hc]), if_neg (by simp [hs]), if_pos hdl]
          exact ⟨by decide, by decide⟩
        · rw [if_pos ha, if_neg (by simp [hc]), if_neg (by simp [hs]),
            if_neg (by simp [hdl]), openAndExtract_trace]
          exact ⟨by decide, by decide⟩
  · rw [if_neg (by simp [ha])]
    exact ⟨by decide, by decide⟩

/-- C1: for every request that passed query-parameter validation, the
event stream emits a named `result` event or an error-carrying `data`
message (in the success, in-pipeline-error, and crashed-generator cases
alike), and the final frame emitted is always a named `end` event — the
stream never terminates without one. -/
theorem C1_stream_always_ends (oc : FetchOutcome) (n : Nat)
    (lat lon date : String) :
    (∃ b, (event_stream oc n lat lon date).getLast? = some (Frame.endEvent b)) ∧
    (∃ p, Frame.errorData p ∈ event_stream oc n lat lon date ∨
      Frame.resultEvent p ∈ event_stream oc n lat lon date) := by
  cases oc with
  | crashed msg tb =>
    refine ⟨⟨"failed", ?_⟩, ⟨.dict [("error", .str msg), ("trace", .str tb)], ?_⟩⟩
    · exact getLast_cons_append_pair _ _ _ _
    · exact Or.inl (by simp [event_stream])
  | ok r =>
    by_cases he : hasKey "error" r
    · refine ⟨⟨"done", ?_⟩, ⟨r, Or.inl ?_⟩⟩
      · simpa [event_stream, he] using getLast_cons_append_pair
          (startFrame lat lon date) (Frame.errorData r) (Frame.endEvent "done")
          (progressFrames n)
      · simp [event_stream, he]
    · cases ht : todiCurrent r with
      | error e =>
        refine ⟨⟨"failed", ?_⟩,
          ⟨.dict [("error", .str e), ("trace", .str "")], Or.inl ?_⟩⟩
        · simpa [event_stream, he, ht] using getLast_cons_append_pair
            (startFrame lat lon date)
            (Frame.errorData (.dict [("error", .str e), ("trace", .str "")]))
            (Frame.endEvent "failed") (progressFrames n)
        · simp [event_stream, he, ht]
      | ok current =>
        refine ⟨⟨"done", ?_⟩,
          ⟨.dict [("liveData", r), ("recommendation", recommendationDict date current)],
           Or.inr ?_⟩⟩
        · simpa [event_stream, he, ht] using getLast_cons_append_pair
            (startFrame lat lon date)
            (Frame.resultEvent (.dict [("liveData", r),
              ("recommendation", recommendationDict date current)]))
            (Frame.endEvent "done") (progressFrames n)
        · simp [event_stream, he, ht]

/-- C2 counterexample: when the archive search returns zero granules, the
`FileNotFoundError` is caught inside `process_live_data` (which returns an
error dictionary rather than raising), so `event_stream` takes its
`"error" in result` branch and still falls through to
`yield "event: end\ndata: done"` (app.py line 128) — the final `end`
event carries body `done`, not `failed`.  The `failed` body is emitted
only by the generator's own `except` handler (app.py line 135), which a
zero-granule search never reaches. -/
theorem C2_counterexample :
    (event_stream (.ok (process_live_data
        { authAuthenticated := true, cacheFileExists := false,
          searchResults := [], downloadedFiles := [],
          firstDownloadExists := false, firstDownloadSize := 0,
          openRaises := some "unused", openedDataset := ⟨[]⟩, now := "t" }
        40 (-75) "2020-07-15" "2020-07-15").1) 0 "40" "-75" "2020-07-15").getLast?
      = some (Frame.endEvent "done") ∧
    (event_stream (.ok (process_live_data
        { authAuthenticated := true, cacheFileExists := false,
          searchResults := [], downloadedFiles := [],
          firstDownloadExists := false, firstDownloadSize := 0,
          openRaises := some "unused", openedDataset := ⟨[]⟩, now := "t" }
        40 (-75) "2020-07-15" "2020-07-15").1) 0 "40" "-75" "2020-07-15").getLast?
      ≠ some (Frame.endEvent "failed") := by
  refine ⟨rfl, fun h => ?_⟩
  have h2 : some (Frame.endEvent "done") = some (Frame.endEvent "failed") := h
  simp at h2

/-- C2 (amended): if the archive search returns zero granules, the
`/live-risk` stream's final frames are an error-carrying `data` message
followed by an `end` event whose body is `done` (the in-pipeline error is
converted to an error dictionary, so the generator's normal completion
path runs, not its exception path). -/
theorem C2_amended_zero_granules_end_done (env : Env) (lat lon : ℚ) (n : Nat)
    (latS lonS date sd ed : String)
    (ha : env.authAuthenticated = true) (hc : env.cacheFileExists = false)
    (hs : env.searchResults = []) :
    hasKey "error" (process_live_data env lat lon sd ed).1 = true ∧
    (event_stream (.ok (process_live_data env lat lon sd ed).1)
        n latS lonS date).getLast? = some (Frame.endEvent "done") ∧
    (event_stream (.ok (process_live_data env lat lon sd ed).1)
        n latS lonS date).dropLast.getLast?
      = some (Frame.errorData (process_live_data env lat lon sd ed).1) := by
  have hr : (process_live_data env lat lon sd ed).1 =
      .dict [("error",
        .str "An unexpected error occurred: No live data found for this location/date.")] := by
    unfold process_live_data pipelineBody
    simp [ha, hc, hs]
  have hk : hasKey "error" (process_live_data env lat lon sd ed).1 = true := by
    rw [hr]
    rfl
  refine ⟨hk, ?_, ?_⟩
  · simpa [event_stream, hk] using getLast_cons_append_pair
      (startFrame latS lonS date)
      (Frame.errorData (process_live_data env lat lon sd ed).1)
      (Frame.endEvent "done") (progressFrames n)
  · simpa [event_stream, hk] using dropLast_getLast_cons_append_pair
      (startFrame latS lonS date)
      (Frame.errorData (process_live_data env lat lon sd ed).1)
      (Frame.endEvent "done") (progressFrames n)

/-- C2 witness: a concrete zero-granule run, showing the error `data`
frame followed by `end` with body `done`. -/
theorem C2_amended_zero_granules_end_done_witness :
    hasKey "error" (process_live_data
      { authAuthenticated := true, cacheFileExists := false,
        searchResults := [], downloadedFiles := [],
        firstDownloadExists := false, firstDownloadSize := 0,
        openRaises := some "unused", openedDataset := ⟨[]⟩, now := "t" }
      40 (-75) "2020-07-15" "2020-07-15").1 = true ∧
    (event_stream (.ok (process_live_data
      { authAuthenticated := true, cacheFileExists := false,
        searchResults := [], downloadedFiles := [],
        firstDownloadExists := false, firstDownloadSize := 0,
        openRaises := some "unused", openedDataset := ⟨[]⟩, now := "t" }
      40 (-75) "2020-07-15" "2020-07-15").1) 3 "40" "-75" "2020-07-15").getLast?
      = some (Frame.endEvent "done") ∧
    (event_stream (.ok (process_live_data
      { authAuthenticated := true, cacheFileExists := false,
        searchResults := [], downloadedFiles := [],
        firstDownloadExists := false, firstDownloadSize := 0,
        openRaises := some "unused", openedDataset := ⟨[]⟩, now := "t" }
      40 (-75) "2020-07-15" "2020-07-15").1) 3 "40" "-75" "2020-07-15").dropLast.getLast?
      = some (Frame.errorData (process_live_data
      { authAuthenticated := true, cacheFileExists := false,
        searchResults := [], downloadedFiles := [],
        firstDownloadExists := false, firstDownloadSize := 0,
        openRaises := some "unused", openedDataset := ⟨[]⟩, now := "t" }
      40 (-75) "2020-07-15" "2020-07-15").1) :=
  C2_amended_zero_granules_end_done _ 40 (-75) 3 "40" "-75" "2020-07-15"
    "2020-07-15" "2020-07-15" rfl rfl rfl

end Climarisk
